import Mathlib

/-!
Verification of the CAIMF analytical core (`caimf/models.py`,
`caimf/data_handler.py`, `caimf/anomaly_detection.py`, alert decoration in
`caimf/api.py`) against its natural-language specification.

Modelling conventions:
* pandas numeric columns are embedded as exact rationals (`ℚ`); a cell that can
  be `NaN` in the dataframe is embedded as `Option ℚ` with `none` for `NaN`.
* `ε = 1e-8` is the literal `1/10^8`.
* A dataframe is a `List` of row structures; a pipeline stage that adds columns
  returns rows of an extended structure (pandas column assignment on a copy).
* pandas `Series.std`/`var`/`transform('var')` use `ddof = 1` (sample
  statistics) and return `NaN` for windows/groups with fewer than two values;
  this is embedded explicitly below.
-/

namespace CAIMF

attribute [local semireducible] Rat.add Rat.sub Rat.mul Rat.inv

/-- `1e-8`, the ε used throughout the code to avoid division by zero. -/
def eps : ℚ := 1 / 100000000

/-- pandas `Series.clip(lo, hi)`, elementwise. -/
def clipQ (lo hi x : ℚ) : ℚ := max lo (min x hi)

/-- Arithmetic mean of a list of rationals (`Series.mean`). -/
def listMean (xs : List ℚ) : ℚ := xs.sum / xs.length

/-- Sample variance with `ddof = 1` (the pandas default), meaningful only for
lists with at least two elements. -/
def sampleVar (xs : List ℚ) : ℚ :=
  ((xs.map (fun x => (x - listMean xs) ^ 2)).sum) / ((xs.length : ℚ) - 1)

/-- pandas `transform('var')` followed by `fillna(0)`: sample variance, with
the `NaN` produced on fewer than two observations replaced by `0`
(`models.py` line 137). -/
def sampleVarFilled (xs : List ℚ) : ℚ :=
  if 2 ≤ xs.length then sampleVar xs else 0

/-- Modelled from the spec: population variance (`ddof = 0`) of a list, the
statistic the spec's words "population std-dev" denote (squared; see C5). -/
def specPopVar (xs : List ℚ) : ℚ :=
  ((xs.map (fun x => (x - listMean xs) ^ 2)).sum) / (xs.length : ℚ)

/-! ## Data model

`Row0` is one row of the parameter table produced by
`DataHandler.extract_parameters` (the columns the scoring engine reads).
`Enrolment_Volatility` can be `NaN` (rolling sample std of a single
observation), hence `Option ℚ`.  Each scoring stage extends the row with the
columns it assigns. -/

structure Row0 where
  state : String
  district : String
  year : Int
  month : Int
  C : ℚ
  A : ℚ
  vol : Option ℚ
deriving DecidableEq, Inhabited

/-- After `calculate_ceps`: columns `CEPS`, `Inclusion_Level`. -/
structure Row1 extends Row0 where
  ceps : ℚ
  inclusionLevel : String
deriving DecidableEq, Inhabited

/-- After `calculate_igi`: columns `IGI`, `Gap_Risk_Level`. -/
structure Row2 extends Row1 where
  igi : ℚ
  gapRiskLevel : String
deriving DecidableEq, Inhabited

/-- After `calculate_liss`: columns `LISS`, `Stability_Level`. -/
structure Row3 extends Row2 where
  liss : ℚ
  stabilityLevel : String
deriving DecidableEq, Inhabited

/-- After `calculate_fers`: columns `FERS`, `Exclusion_Risk_Level`.
`FERS` is `NaN` (`none`) on rows whose `Enrolment_Volatility` is `NaN`. -/
structure Row4 extends Row3 where
  fers : Option ℚ
  exclusionRiskLevel : String
deriving DecidableEq, Inhabited

/-! ## Scoring engine (`caimf/models.py`, `InclusionScoringModels`) -/

/-- `classify_inclusion` (`models.py` lines 54-60). -/
def classify_inclusion (c : ℚ) : String :=
  if c < 30 then "Critical" else if c < 60 then "Moderate" else "Healthy"

/-- `calculate_ceps` (`models.py` lines 25-66):
`CEPS = C/(C+A+1e-8)*100`, then the inclusion-level classification. -/
def calculate_ceps (t : List Row0) : List Row1 :=
  t.map fun r =>
    { toRow0 := r
      ceps := r.C / (r.C + r.A + eps) * 100
      inclusionLevel := classify_inclusion (r.C / (r.C + r.A + eps) * 100) }

/-- `classify_gap_risk` (`models.py` lines 94-102). -/
def classify_gap_risk (g : ℚ) : String :=
  if g > 7/10 then "Critical_Gap"
  else if g > 2/5 then "High_Gap"
  else if g > 1/10 then "Moderate_Gap"
  else "Low_Gap"

/-- `calculate_igi` (`models.py` lines 68-107):
`IGI = clip(1 - C/(A+1e-8), -10, 1)`, then the gap-risk classification. -/
def calculate_igi (t : List Row1) : List Row2 :=
  t.map fun r =>
    { toRow1 := r
      igi := clipQ (-10) 1 (1 - r.C / (r.A + eps))
      gapRiskLevel := classify_gap_risk (clipQ (-10) 1 (1 - r.C / (r.A + eps))) }

/-- `classify_stability` (`models.py` lines 147-155). -/
def classify_stability (l : ℚ) : String :=
  if l > 4/5 then "Highly_Stable"
  else if l > 3/5 then "Stable"
  else if l > 2/5 then "Unstable"
  else "Highly_Unstable"

/-- The `groupby(['State','District'])['CEPS'].transform('var').fillna(0)`
value aligned to row `r` of table `t` (`models.py` lines 134-137). -/
def lissVariance (t : List Row2) (r : Row2) : ℚ :=
  sampleVarFilled
    ((t.filter fun s => s.state = r.state ∧ s.district = r.district).map (·.ceps))

/-- `calculate_liss` (`models.py` lines 109-160):
`LISS = clip(1 - var/(max_var + 1e-8), 0, 1)` where `var` is each row's
region-wise sample variance of `CEPS` (`NaN` filled with 0) and `max_var`
the maximum of that column. -/
def calculate_liss (t : List Row2) : List Row3 :=
  let maxVar := ((t.map (lissVariance t)).max?.getD 0) + eps
  t.map fun r =>
    { toRow2 := r
      liss := clipQ 0 1 (1 - lissVariance t r / maxVar)
      stabilityLevel := classify_stability (clipQ 0 1 (1 - lissVariance t r / maxVar)) }

/-- `classify_exclusion_risk` (`models.py` lines 216-224).  All comparisons
with `NaN` are false in pandas, so a `NaN` `FERS` classifies as `Low_Risk`;
callers pass `none` through `classify_exclusion_risk_opt`. -/
def classify_exclusion_risk (f : ℚ) : String :=
  if f > 4/5 then "Critical_Risk"
  else if f > 3/5 then "High_Risk"
  else if f > 2/5 then "Medium_Risk"
  else "Low_Risk"

/-- `classify_exclusion_risk` applied to a possibly-`NaN` `FERS` value. -/
def classify_exclusion_risk_opt (f : Option ℚ) : String :=
  match f with
  | some v => classify_exclusion_risk v
  | none => "Low_Risk"

/-- Weight handling at the top of `calculate_fers` (`models.py` lines
181-184): if `|w1+w2+w3-1| > 0.01` the weights are silently renormalized by
their total; Python float division by a zero total raises an (unhandled)
`ZeroDivisionError`, embedded as the `.error` case.  No other validation is
performed. -/
def prepWeights (w1 w2 w3 : ℚ) : Except String (ℚ × ℚ × ℚ) :=
  if |w1 + w2 + w3 - 1| > 1/100 then
    let total := w1 + w2 + w3
    if total = 0 then .error "ZeroDivisionError"
    else .ok (w1 / total, w2 / total, w3 / total)
  else .ok (w1, w2, w3)

/-- Body of `calculate_fers` after the weight check (`models.py` lines
186-230): `FERS = clip(w1*(1-CEPS/100) + w2*igi_norm + w3*vol_norm, 0, 1)`
with `igi_norm` the dataset-wide min-max normalization of `IGI` and
`vol_norm = Enrolment_Volatility / (max volatility + 1e-8)` (`NaN`
volatility propagates to a `NaN` `FERS`). -/
def calculate_fers_core (w1 w2 w3 : ℚ) (t : List Row3) : List Row4 :=
  let igiMin := (t.map (·.igi)).min?.getD 0
  let igiMax := (t.map (·.igi)).max?.getD 0
  let volMax := ((t.filterMap (·.vol)).max?.getD 0) + eps
  t.map fun r =>
    let fersVal : Option ℚ :=
      r.vol.map fun v =>
        clipQ 0 1 (w1 * (1 - r.ceps / 100)
          + w2 * ((r.igi - igiMin) / (igiMax - igiMin + eps))
          + w3 * (v / volMax))
    { toRow3 := r
      fers := fersVal
      exclusionRiskLevel := classify_exclusion_risk_opt fersVal }

/-- `calculate_fers` (`models.py` lines 162-230): weight
check/renormalization, then the FERS computation. -/
def calculate_fers (w1 w2 w3 : ℚ) (t : List Row3) : Except String (List Row4) :=
  (prepWeights w1 w2 w3).map fun w => calculate_fers_core w.1 w.2.1 w.2.2 t

/-- `compute_all_scores` (`models.py` lines 232-249): CEPS → IGI → LISS →
FERS with the default weights `0.4, 0.35, 0.25`. -/
def compute_all_scores (t : List Row0) : Except String (List Row4) :=
  calculate_fers (2/5) (7/20) (1/4) (calculate_liss (calculate_igi (calculate_ceps t)))

/-- The base-parameter columns of a fully scored row (the columns
`compute_all_scores` reads; every scoring stage overwrites all the score
columns and reads only these plus scores set earlier in the same run). -/
def scoredBase (r : Row4) : Row0 := r.toRow0

/-- Re-running `compute_all_scores` on an already-scored table: each stage
recomputes its columns from the base columns (the `if ... not in df.columns`
guards in the source cannot fire on a scored table, and no stage reads a
score column before overwriting it in the same run), so the run is the run
on the base columns. -/
def compute_all_scores_rescore (u : List Row4) : Except String (List Row4) :=
  compute_all_scores (u.map scoredBase)

/-! ## Normalizer (`data_handler.py`, `normalize_data`)

The z-score involves a square root, so its exact value lives in `ℝ`; only its
definedness (pandas `NaN`-ness) and its numerator are needed by the claims. -/

/-- One row of the cleaned table as read by `normalize_data`. -/
structure NRow where
  state : String
  district : String
  ageGroup : String
  count : ℚ
deriving DecidableEq, Inhabited

/-- The `Enrolment_Count` values of row `r`'s
`(State, District, Age_Group)` group in table `t`. -/
def groupCounts (t : List NRow) (r : NRow) : List ℚ :=
  (t.filter fun s =>
    s.state = r.state ∧ s.district = r.district ∧ s.ageGroup = r.ageGroup).map (·.count)

/-- pandas `Series.std()` (`ddof = 1`): `NaN` (`none`) on fewer than two
observations, otherwise the square root of the sample variance. -/
noncomputable def seriesStd (xs : List ℚ) : Option ℝ :=
  if 2 ≤ xs.length then some (Real.sqrt (sampleVar xs)) else none

/-- The z-score `(x - mean) / (std + 1e-8)` of `normalize_data`
(`data_handler.py` lines 222-224); a `NaN` std makes the z-score `NaN`. -/
noncomputable def enrolmentZScore (xs : List ℚ) (x : ℚ) : Option ℝ :=
  (seriesStd xs).map fun s => ((x - listMean xs : ℚ) : ℝ) / (s + (eps : ℝ))

/-- The `Enrolment_ZScore` column value of row `r` in table `t`. -/
noncomputable def zscoreColumn (t : List NRow) (r : NRow) : Option ℝ :=
  enrolmentZScore (groupCounts t r) r.count

/-- The `Enrolment_MinMax` column value `(x - min)/(max - min + 1e-8)` of row
`r` in table `t` (`data_handler.py` lines 227-229). -/
def minmaxColumn (t : List NRow) (r : NRow) : ℚ :=
  let xs := groupCounts t r
  (r.count - xs.min?.getD 0) / (xs.max?.getD 0 - xs.min?.getD 0 + eps)

/-- `normalize_data` (`data_handler.py` lines 210-233): each row paired with
its `Enrolment_ZScore` and `Enrolment_MinMax` values. -/
noncomputable def normalize_data (t : List NRow) : List (NRow × Option ℝ × ℚ) :=
  t.map fun r => (r, zscoreColumn t r, minmaxColumn t r)

/-! ## Enrolment volatility (`data_handler.py` lines 266-269)

`extract_parameters` computes, for each `(State, District)` chronological
series of `C` values, `rolling(window=3, min_periods=1).std()`.  pandas
`rolling.std` uses `ddof = 1`, so a window holding a single observation
yields `NaN` even though `min_periods=1` admits it.  The standard deviation
of a rational window is irrational in general, so the series is embedded at
the squared level: `enrolmentVolatilitySq` lists the squares of the
volatility values (`none` for `NaN`); since `Real.sqrt` is injective on
nonnegative reals this determines the volatility column exactly. -/

/-- The trailing window `[max(0, i-2), i]` of a series (at most 3 samples). -/
def windowAt (xs : List ℚ) (i : Nat) : List ℚ :=
  (xs.take (i + 1)).drop (i + 1 - 3)

/-- The squared `Enrolment_Volatility` series of one region's chronological
`C` values: sample variance (`ddof = 1`) of the trailing window, `NaN`
(`none`) when the window holds fewer than two samples. -/
def enrolmentVolatilitySq (xs : List ℚ) : List (Option ℚ) :=
  (List.range xs.length).map fun i =>
    let w := windowAt xs i
    if 2 ≤ w.length then some (sampleVar w) else none

/-! ## Stagnation detector (`anomaly_detection.py`, `detect_stagnation_anomaly`)

The input table is first sorted by `(State, District, Year, Month)` (stable,
like `DataFrame.sort_values`).  The near-zero-growth flag is then computed by
a **global** `df['C'] - df['C'].shift(1)` over the whole sorted table — it is
not grouped by region — while the trailing rolling sum of the flags *is*
grouped by `(State, District)`. -/

/-- One row of the parameter table as read by the stagnation detector. -/
structure SRow where
  state : String
  district : String
  year : Int
  month : Int
  C : ℚ
deriving DecidableEq, Inhabited

/-- Lexicographic strict order on char lists (the order `String.lt`
denotes, written out so it evaluates). -/
def strLtB : List Char → List Char → Bool
  | _ :: _, [] => false
  | [], [] => false
  | [], _ :: _ => true
  | a :: as, b :: bs => if a < b then true else if b < a then false else strLtB as bs

/-- String `<` (code-point lexicographic, the order pandas sorts strings by). -/
def strLt (a b : String) : Bool := strLtB a.data b.data

/-- `sort_values(['State','District','Year','Month'])` comparison (stable
merge sort below, as in pandas). -/
def srowLE (a b : SRow) : Bool :=
  if a.state ≠ b.state then strLt a.state b.state
  else if a.district ≠ b.district then strLt a.district b.district
  else if a.year ≠ b.year then a.year < b.year
  else a.month ≤ b.month

/-- The stable sort at the top of `detect_stagnation_anomaly`
(`anomaly_detection.py` line 123). -/
def sortByRegionTime (t : List SRow) : List SRow := t.mergeSort srowLE

/-- `Near_Zero_Growth` flags over the already-sorted table
(`anomaly_detection.py` line 126): `|C[i] - C[i-1]| < 10` with the global
(ungrouped) `shift(1)`; the first row of the whole table compares against
`NaN`, which is false. -/
def nearZeroGrowthFlags (t : List SRow) : List Bool :=
  match t with
  | [] => []
  | _ :: _ => false :: (t.zip t.tail).map fun p => decide (|p.2.C - p.1.C| < 10)

/-- Modelled from the spec: the near-zero-growth flag computed *within the
same region* — the first period of each `(State, District)` series has no
prior row, so its flag is false (what the spec's "within the same region"
prescribes; the code instead uses the global shift above). -/
def specNearZeroGrowthFlags (t : List SRow) : List Bool :=
  (List.range t.length).map fun i =>
    match t[i]? with
    | none => false
    | some r =>
      match ((t.take i).filter fun s =>
          s.state = r.state ∧ s.district = r.district).getLast? with
      | none => false
      | some p => decide (|r.C - p.C| < 10)

/-- The region-grouped trailing rolling sum
`groupby(['State','District'])...rolling(window=m, min_periods=1).sum()` of a
flag column, aligned to row `i`: the number of true flags among the last `m`
rows of row `i`'s region up to and including row `i`. -/
def regionRollingSum (t : List SRow) (flags : List Bool) (m : Nat) (i : Nat) : Nat :=
  match t[i]? with
  | none => 0
  | some r =>
    let grpFlags := ((t.zip flags).take (i + 1)).filterMap fun p =>
      if p.1.state = r.state ∧ p.1.district = r.district then some p.2 else none
    ((grpFlags.drop (grpFlags.length - m)).filter id).length

/-- `Anomaly_Stagnation` flags of `detect_stagnation_anomaly`
(`anomaly_detection.py` lines 114-138) on the sorted table: the per-region
rolling sum of the (globally computed) near-zero-growth flags over a window
of `stagnationMonths` reaches `stagnationMonths`. -/
def stagnationFlags (t : List SRow) (stagnationMonths : Nat) : List Bool :=
  let s := sortByRegionTime t
  let flags := nearZeroGrowthFlags s
  (List.range s.length).map fun i =>
    decide (stagnationMonths ≤ regionRollingSum s flags stagnationMonths i)

/-- The anomalous rows returned by `detect_stagnation_anomaly`. -/
def detect_stagnation_anomaly (t : List SRow) (stagnationMonths : Nat) : List SRow :=
  ((sortByRegionTime t).zip (stagnationFlags t stagnationMonths)).filterMap
    fun p => if p.2 then some p.1 else none

/-- Modelled from the spec: the stagnation flags with the near-zero-growth
flag computed within the same region (the claim's reading). -/
def specStagnationFlags (t : List SRow) (stagnationMonths : Nat) : List Bool :=
  let s := sortByRegionTime t
  let flags := specNearZeroGrowthFlags s
  (List.range s.length).map fun i =>
    decide (stagnationMonths ≤ regionRollingSum s flags stagnationMonths i)

/-! ## Alert generator (`anomaly_detection.py`, `create_policy_alerts`) and
its decoration by the API layer (`api.py`, `get_policy_alerts`) -/

/-- One policy-alert record.  `create_policy_alerts` builds dicts with keys
`type`, `region`, a type-specific numeric key (`ceps`/`fers`/`liss`, the
`value` field here), `message` (a formatted string, not modelled) and
`action`; it sets **no** `priority` key, so `priority` is `Option`-valued
with `none` for an absent key (the API layer adds it afterwards). -/
structure Alert where
  type : String
  region : String
  value : ℚ
  action : String
  priority : Option String
deriving DecidableEq, Inhabited

/-- The row mask `scores_df['CEPS'] < 20` (`anomaly_detection.py` line 206). -/
def cepsLow (r : Row4) : Bool := r.ceps < 20

/-- The row mask `scores_df['FERS'] > 0.75` (`anomaly_detection.py` line
217); false on a `NaN` `FERS`, as every pandas comparison with `NaN` is. -/
def fersHigh (r : Row4) : Bool :=
  match r.fers with
  | some f => f > 3/4
  | none => false

/-- The row mask `scores_df['LISS'] < 0.4` (`anomaly_detection.py` line 228). -/
def lissLow (r : Row4) : Bool := r.liss < 2/5

/-- The `CRITICAL_INCLUSION_GAP` alert built for a qualifying row
(`anomaly_detection.py` lines 208-214). -/
def critAlertOf (r : Row4) : Alert :=
  { type := "CRITICAL_INCLUSION_GAP"
    region := r.state ++ ", " ++ r.district
    value := r.ceps
    action := "Deploy intensive child enrolment drive"
    priority := none }

/-- The `HIGH_EXCLUSION_RISK` alert built for a qualifying row
(`anomaly_detection.py` lines 219-225); such a row has a non-`NaN` `FERS`. -/
def highAlertOf (r : Row4) : Alert :=
  { type := "HIGH_EXCLUSION_RISK"
    region := r.state ++ ", " ++ r.district
    value := r.fers.getD 0
    action := "Initiate policy review and capacity assessment"
    priority := none }

/-- The `UNSTABLE_ENROLMENT` alert built for a qualifying row
(`anomaly_detection.py` lines 230-236). -/
def unstableAlertOf (r : Row4) : Alert :=
  { type := "UNSTABLE_ENROLMENT"
    region := r.state ++ ", " ++ r.district
    value := r.liss
    action := "Investigate root cause and stabilize processes"
    priority := none }

/-- `create_policy_alerts` (`anomaly_detection.py` lines 189-239): with no
scores table the alert list stays empty; otherwise one alert per row with
`CEPS < 20`, then one per row with `FERS > 0.75`, then one per row with
`LISS < 0.4`, in that order.  The unused processed-data argument `df` is
kept from the signature. -/
def create_policy_alerts (df : List Row0) (scores_df : Option (List Row4)) :
    List Alert :=
  match df, scores_df with
  | _, none => []
  | _, some s =>
    (s.filter cepsLow).map critAlertOf
      ++ (s.filter fersHigh).map highAlertOf
      ++ (s.filter lissLow).map unstableAlertOf

/-- The priority decoration of `api.py` lines 276-282: `P0` for
`CRITICAL_INCLUSION_GAP`, `P1` for `HIGH_EXCLUSION_RISK`, `P2` otherwise. -/
def addPriority (a : Alert) : Alert :=
  if a.type = "CRITICAL_INCLUSION_GAP" then { a with priority := some "P0" }
  else if a.type = "HIGH_EXCLUSION_RISK" then { a with priority := some "P1" }
  else { a with priority := some "P2" }

/-- The sort key of `api.py` lines 285-286: `{'P0': 0, 'P1': 1, 'P2': 2}`
with default `3` for anything else. -/
def priorityOrder (a : Alert) : Nat :=
  match a.priority with
  | some "P0" => 0
  | some "P1" => 1
  | some "P2" => 2
  | _ => 3

/-- The comparison underlying `alerts.sort(key=...)` in `api.py` line 286. -/
def alertLE (a b : Alert) : Bool := priorityOrder a ≤ priorityOrder b

/-- The alert list as served by `api.py` `get_policy_alerts`: the core list,
priorities attached, stably sorted ascending by priority (Python
`list.sort`). -/
def apiPolicyAlerts (df : List Row0) (scores_df : Option (List Row4)) :
    List Alert :=
  ((create_policy_alerts df scores_df).map addPriority).mergeSort alertLE

/-! ## Priority intervention ranking
(`anomaly_detection.py`, `get_priority_intervention_regions`)

This function assigns `scores_df['Intervention_Priority'] = ...` **without**
copying `scores_df` first, so the caller's scores table gains the column in
place.  To observe that, the scores table is embedded as rows paired with
their `Intervention_Priority` cell (`none` = column absent), and each
operation is given a state-transformer form returning the caller's table as
it stands after the call. -/

/-- The intervention score
`(1 - CEPS/100)*0.3 + FERS*0.4 + (1 - LISS)*0.3`
(`anomaly_detection.py` lines 252-256); `NaN` `FERS` makes it `NaN`. -/
def interventionScore (r : Row4) : Option ℚ :=
  r.fers.map fun f => (1 - r.ceps / 100) * (3/10) + f * (2/5) + (1 - r.liss) * (3/10)

/-- A row of the returned ranking: the selected columns
`[State, District, CEPS, FERS, LISS, Intervention_Priority]`. -/
structure InterventionRow where
  state : String
  district : String
  ceps : ℚ
  fers : Option ℚ
  liss : ℚ
  interventionPriority : ℚ
deriving DecidableEq, Inhabited

/-- `get_priority_intervention_regions` (`anomaly_detection.py` lines
241-264) as a state transformer on the caller's scores table: the first
component is the caller's table after the call (the `Intervention_Priority`
column has been assigned in place), the second the returned top-`n` ranking
(`nlargest` keeps non-`NaN` rows, descending, stable). -/
def get_priority_intervention_regions (df : List Row0)
    (scores_df : List (Row4 × Option ℚ)) (top_n : Nat) :
    List (Row4 × Option ℚ) × List InterventionRow :=
  match df with
  | _ =>
    let mutated := scores_df.map fun p => (p.1, interventionScore p.1)
    let ranked :=
      ((mutated.filterMap fun p => p.2.map fun v => (p.1, v)).mergeSort
        fun a b => b.2 ≤ a.2).take top_n
    (mutated, ranked.map fun p =>
      { state := p.1.state, district := p.1.district, ceps := p.1.ceps
        fers := p.1.fers, liss := p.1.liss, interventionPriority := p.2 })

/-! ## Aggregators (`models.py`, `get_regional_summary` / `get_state_summary`
and the top-N views)

`groupby([...]).agg({...}).reset_index()` builds a **new** frame, one row per
group in ascending key order (pandas `groupby` default `sort=True`); the
result is then sorted descending by `Avg_FERS` (`NaN` means placed last, as
pandas `sort_values` does).  pandas `mean` skips `NaN`, so `Avg_FERS` is
`NaN` only when every `FERS` in the group is. -/

/-- pandas `mean` of a column that may hold `NaN`s: the mean of the defined
values, `NaN` (`none`) when there are none. -/
def meanOpt (xs : List (Option ℚ)) : Option ℚ :=
  match xs.filterMap id with
  | [] => none
  | ds => some (listMean ds)

/-- Ascending `(State, District)` group-key order (pandas `groupby` sorts
keys). -/
def regionKeyLE (a b : String × String) : Bool :=
  if a.1 ≠ b.1 then strLt a.1 b.1 else (strLt a.2 b.2 || a.2 = b.2)

/-- The distinct `(State, District)` keys of a scored table in ascending
order. -/
def regionKeys (t : List Row4) : List (String × String) :=
  ((t.map fun r => (r.state, r.district)).eraseDups).mergeSort regionKeyLE

/-- The distinct `State` keys of a scored table in ascending order. -/
def stateKeys (t : List Row4) : List String :=
  ((t.map (·.state)).eraseDups).mergeSort fun a b => strLt a b || a = b

/-- Descending-by-`Avg_FERS` comparison with `NaN` last
(`sort_values('Avg_FERS', ascending=False)`). -/
def avgFersDesc (a b : Option ℚ) : Bool :=
  match a, b with
  | some x, some y => y ≤ x
  | some _, none => true
  | none, some _ => false
  | none, none => true

/-- One row of the regional summary (`models.py` lines 263-274): mean scores
and summed counts per `(State, District)`.  The summed `T` column is the
`C + A` column `extract_parameters` created. -/
structure RegionalSummaryRow where
  state : String
  district : String
  avgCEPS : ℚ
  avgIGI : ℚ
  avgLISS : ℚ
  avgFERS : Option ℚ
  totalChild : ℚ
  totalAdult : ℚ
  totalEnrolments : ℚ
deriving DecidableEq, Inhabited

/-- `get_regional_summary` (`models.py` lines 251-278): group by
`(State, District)`, aggregate, sort descending by `Avg_FERS`. -/
def get_regional_summary (t : List Row4) : List RegionalSummaryRow :=
  ((regionKeys t).map fun k =>
    let g := t.filter fun r => r.state = k.1 ∧ r.district = k.2
    { state := k.1
      district := k.2
      avgCEPS := listMean (g.map (·.ceps))
      avgIGI := listMean (g.map (·.igi))
      avgLISS := listMean (g.map (·.liss))
      avgFERS := meanOpt (g.map (·.fers))
      totalChild := (g.map (·.C)).sum
      totalAdult := (g.map (·.A)).sum
      totalEnrolments := (g.map fun r => r.C + r.A).sum }).mergeSort
    fun a b => avgFersDesc a.avgFERS b.avgFERS

/-- One row of the state summary (`models.py` lines 284-297).  `Child_Share`
is `ΣC/(ΣC+ΣA)·100` with **no** ε guard; on the data domain (`C, A ≥ 0`)
the only degenerate case is a zero total, where the float quotient is `NaN`
(`none`). -/
structure StateSummaryRow where
  state : String
  avgCEPS : ℚ
  avgIGI : ℚ
  avgLISS : ℚ
  avgFERS : Option ℚ
  totalChild : ℚ
  totalAdult : ℚ
  childShare : Option ℚ
deriving DecidableEq, Inhabited

/-- `get_state_summary` (`models.py` lines 280-299): group by `State`,
aggregate, add `Child_Share`, sort descending by `Avg_FERS`. -/
def get_state_summary (t : List Row4) : List StateSummaryRow :=
  ((stateKeys t).map fun k =>
    let g := t.filter fun r => r.state = k
    let tc := (g.map (·.C)).sum
    let ta := (g.map (·.A)).sum
    { state := k
      avgCEPS := listMean (g.map (·.ceps))
      avgIGI := listMean (g.map (·.igi))
      avgLISS := listMean (g.map (·.liss))
      avgFERS := meanOpt (g.map (·.fers))
      totalChild := tc
      totalAdult := ta
      childShare := if tc + ta = 0 then none else some (tc / (tc + ta) * 100) }).mergeSort
    fun a b => avgFersDesc a.avgFERS b.avgFERS

/-- `get_top_risk_regions` (`models.py` lines 301-313): first `n` rows of the
regional summary. -/
def get_top_risk_regions (t : List Row4) (top_n : Nat) : List RegionalSummaryRow :=
  (get_regional_summary t).take top_n

/-- `get_top_low_inclusion_regions` (`models.py` lines 315-318): the `n`
summary rows with smallest `Avg_CEPS` (`nsmallest`, stable). -/
def get_top_low_inclusion_regions (t : List Row4) (top_n : Nat) :
    List RegionalSummaryRow :=
  ((get_regional_summary t).mergeSort fun a b => a.avgCEPS ≤ b.avgCEPS).take top_n

/-! ## The remaining anomaly detectors (`anomaly_detection.py`)

Each detector copies its input (`df.copy()`, or `sort_values(...).copy()`)
before assigning its mask columns, and returns the flagged rows; the mask
columns of the returned frame are not modelled, only which rows qualify. -/

/-- `detect_high_adult_enrolment_anomaly` (`anomaly_detection.py` lines
34-53): rows with `Child_Ratio = C/(C+A+1e-8) < min_child_ratio`. -/
def detect_high_adult_enrolment_anomaly (t : List Row0) (min_child_ratio : ℚ) :
    List Row0 :=
  t.filter fun r => decide (r.C / (r.C + r.A + eps) < min_child_ratio)

/-- The `sort_values(['State','District','Year','Month'])` comparison on
parameter rows. -/
def row0LE (a b : Row0) : Bool :=
  if a.state ≠ b.state then strLt a.state b.state
  else if a.district ≠ b.district then strLt a.district b.district
  else if a.year ≠ b.year then a.year < b.year
  else a.month ≤ b.month

/-- The stable region/time sort of the growth detector
(`anomaly_detection.py` line 64). -/
def sortParamTable (t : List Row0) : List Row0 := t.mergeSort row0LE

/-- `groupby(['State','District'])['C'].pct_change()` at row `i` of the
sorted table: `(C[i]-C[i-1])/C[i-1]` against the previous row of the same
region; `NaN` (`none`) at a region's first period.  A zero prior count gives
`±inf`/`NaN` in pandas, which on the data domain (`C ≥ 0`) never satisfies
`< growth_threshold`, so it is also embedded as `none`. -/
def childGrowthRate (s : List Row0) (i : Nat) : Option ℚ :=
  match s[i]? with
  | none => none
  | some r =>
    match ((s.take i).filter fun q =>
        q.state = r.state ∧ q.district = r.district).getLast? with
    | none => none
    | some p => if p.C = 0 then none else some ((r.C - p.C) / p.C)

/-- The region-grouped trailing rolling sum of a flag column over parameter
rows (same computation as `regionRollingSum`, for `Row0` tables). -/
def regionRollingSum0 (t : List Row0) (flags : List Bool) (m : Nat) (i : Nat) : Nat :=
  match t[i]? with
  | none => 0
  | some r =>
    let grpFlags := ((t.zip flags).take (i + 1)).filterMap fun p =>
      if p.1.state = r.state ∧ p.1.district = r.district then some p.2 else none
    ((grpFlags.drop (grpFlags.length - m)).filter id).length

/-- `detect_declining_growth_anomaly` (`anomaly_detection.py` lines 55-84):
sort, flag `Child_Growth_Rate < growth_threshold` (false for `NaN`), then
flag rows whose per-region trailing window of `consecutive_periods` flags
sums to at least `consecutive_periods`. -/
def detect_declining_growth_anomaly (t : List Row0) (consecutive_periods : Nat)
    (growth_threshold : ℚ) : List Row0 :=
  let s := sortParamTable t
  let flags := (List.range s.length).map fun i =>
    match childGrowthRate s i with
    | some g => decide (g < growth_threshold)
    | none => false
  (s.zip ((List.range s.length).map fun i =>
    decide (consecutive_periods ≤ regionRollingSum0 s flags consecutive_periods i))).filterMap
    fun p => if p.2 then some p.1 else none

/-- `detect_volatility_anomaly` (`anomaly_detection.py` lines 86-112) on a
parameter table (which carries the `Enrolment_Volatility` column): rows with
`Enrolment_Volatility / (max volatility + 1e-8) > volatility_threshold`;
every comparison with a `NaN` volatility is false. -/
def detect_volatility_anomaly (t : List Row0) (volatility_threshold : ℚ) :
    List Row0 :=
  let volMax := ((t.filterMap (·.vol)).max?.getD 0) + eps
  t.filter fun r =>
    match r.vol with
    | some v => decide (v / volMax > volatility_threshold)
    | none => false

/-- `detect_seasonal_anomaly` (`anomaly_detection.py` lines 140-167): the
seasonal baseline is the mean `C` of the row's `(State, District, Month)`
group; rows whose `|C - baseline|`, normalized by the dataset-wide maximum
deviation `+ 1e-8`, exceeds `0.5` are flagged. -/
def detect_seasonal_anomaly (t : List Row0) : List Row0 :=
  let devOf := fun (r : Row0) =>
    |r.C - listMean ((t.filter fun s =>
      s.state = r.state ∧ s.district = r.district ∧ s.month = r.month).map (·.C))|
  let devMax := ((t.map devOf).max?.getD 0) + eps
  t.filter fun r => decide (devOf r / devMax > 1/2)

/-- The columns of a parameter row that the stagnation detector reads. -/
def srowOfRow0 (r : Row0) : SRow :=
  ⟨r.state, r.district, r.year, r.month, r.C⟩

/-- `detect_all_anomalies` (`anomaly_detection.py` lines 169-187): the five
detectors run on the same table with the default windows (3 consecutive
periods, 6 stagnation months), keyed `low_child_ratio / declining_growth /
high_volatility / stagnation / seasonal_deviation`. -/
def detect_all_anomalies (t : List Row0)
    (volatility_threshold growth_threshold min_child_ratio : ℚ) :
    List Row0 × List Row0 × List Row0 × List SRow × List Row0 :=
  (detect_high_adult_enrolment_anomaly t min_child_ratio,
   detect_declining_growth_anomaly t 3 growth_threshold,
   detect_volatility_anomaly t volatility_threshold,
   detect_stagnation_anomaly (t.map srowOfRow0) 6,
   detect_seasonal_anomaly t)

/-! ## State-transformer forms

Each operation is paired with the caller's table as it stands after the
call.  Every stage below except `get_priority_intervention_regions` either
copies its input before assigning columns (`df = df.copy()` /
`sort_values(...).copy()`: `anomaly_detection.py` lines 42, 64, 94, 123,
148) or only builds new frames (`groupby(...).agg(...)`: `models.py` lines
263-271 and 284-291; list building in `create_policy_alerts`), so the
caller's table is returned unchanged. -/

/-- State-transformer form of `compute_all_scores` (each scoring stage
copies: `models.py` lines 44, 85, 131, 186). -/
def compute_all_scores_st (t : List Row0) :
    List Row0 × Except String (List Row4) := (t, compute_all_scores t)

/-- State-transformer form of `get_regional_summary` (new frame from
`groupby().agg()`, `models.py` lines 263-271). -/
def get_regional_summary_st (t : List Row4) :
    List Row4 × List RegionalSummaryRow := (t, get_regional_summary t)

/-- State-transformer form of `get_state_summary` (new frame from
`groupby().agg()`, `models.py` lines 284-291). -/
def get_state_summary_st (t : List Row4) :
    List Row4 × List StateSummaryRow := (t, get_state_summary t)

/-- State-transformer form of `get_top_risk_regions` (reads a fresh regional
summary). -/
def get_top_risk_regions_st (t : List Row4) (top_n : Nat) :
    List Row4 × List RegionalSummaryRow := (t, get_top_risk_regions t top_n)

/-- State-transformer form of `get_top_low_inclusion_regions` (reads a fresh
regional summary). -/
def get_top_low_inclusion_regions_st (t : List Row4) (top_n : Nat) :
    List Row4 × List RegionalSummaryRow := (t, get_top_low_inclusion_regions t top_n)

/-- State-transformer form of `detect_high_adult_enrolment_anomaly`
(`df = df.copy()`, `anomaly_detection.py` line 42). -/
def detect_high_adult_enrolment_anomaly_st (t : List Row0) (min_child_ratio : ℚ) :
    List Row0 × List Row0 := (t, detect_high_adult_enrolment_anomaly t min_child_ratio)

/-- State-transformer form of `detect_declining_growth_anomaly`
(`sort_values(...).copy()`, `anomaly_detection.py` line 64). -/
def detect_declining_growth_anomaly_st (t : List Row0) (consecutive_periods : Nat)
    (growth_threshold : ℚ) : List Row0 × List Row0 :=
  (t, detect_declining_growth_anomaly t consecutive_periods growth_threshold)

/-- State-transformer form of `detect_volatility_anomaly` (`df = df.copy()`,
`anomaly_detection.py` line 94). -/
def detect_volatility_anomaly_st (t : List Row0) (volatility_threshold : ℚ) :
    List Row0 × List Row0 := (t, detect_volatility_anomaly t volatility_threshold)

/-- State-transformer form of `detect_stagnation_anomaly`
(`sort_values(...).copy()`, `anomaly_detection.py` line 123). -/
def detect_stagnation_anomaly_st (t : List SRow) (stagnation_months : Nat) :
    List SRow × List SRow := (t, detect_stagnation_anomaly t stagnation_months)

/-- State-transformer form of `detect_seasonal_anomaly` (`df = df.copy()`,
`anomaly_detection.py` line 148). -/
def detect_seasonal_anomaly_st (t : List Row0) :
    List Row0 × List Row0 := (t, detect_seasonal_anomaly t)

/-- State-transformer form of `detect_all_anomalies` (passes the caller's
table to the five copying detectors). -/
def detect_all_anomalies_st (t : List Row0)
    (volatility_threshold growth_threshold min_child_ratio : ℚ) :
    List Row0 × (List Row0 × List Row0 × List Row0 × List SRow × List Row0) :=
  (t, detect_all_anomalies t volatility_threshold growth_threshold min_child_ratio)

/-- State-transformer form of `create_policy_alerts` (row iteration and list
building only). -/
def create_policy_alerts_st (df : List Row0) (scores_df : Option (List Row4)) :
    (List Row0 × Option (List Row4)) × List Alert :=
  ((df, scores_df), create_policy_alerts df scores_df)

/-! ## Helper lemmas -/

lemma eps_pos : (0 : ℚ) < eps := by norm_num [eps]

lemma le_clipQ {lo hi : ℚ} (x : ℚ) : lo ≤ clipQ lo hi x := le_max_left _ _

lemma clipQ_le {lo hi : ℚ} (x : ℚ) (h : lo ≤ hi) : clipQ lo hi x ≤ hi :=
  max_le h (min_le_right _ _)

lemma calculate_ceps_proj (t : List Row0) :
    (calculate_ceps t).map (·.toRow0) = t := by
  rw [calculate_ceps, List.map_map]
  exact List.map_id t

lemma calculate_igi_proj (t : List Row1) :
    (calculate_igi t).map (·.toRow1) = t := by
  rw [calculate_igi, List.map_map]
  exact List.map_id t

lemma calculate_liss_proj (t : List Row2) :
    (calculate_liss t).map (·.toRow2) = t := by
  rw [calculate_liss, List.map_map]
  exact List.map_id t

lemma calculate_fers_core_proj (w1 w2 w3 : ℚ) (t : List Row3) :
    (calculate_fers_core w1 w2 w3 t).map (·.toRow3) = t := by
  rw [calculate_fers_core, List.map_map]
  exact List.map_id t

lemma prepWeights_default : prepWeights (2/5) (7/20) (1/4) = .ok (2/5, 7/20, 1/4) := by
  norm_num [prepWeights]

lemma compute_all_scores_eq (t : List Row0) :
    compute_all_scores t =
      .ok (calculate_fers_core (2/5) (7/20) (1/4)
        (calculate_liss (calculate_igi (calculate_ceps t)))) := by
  unfold compute_all_scores calculate_fers
  rw [prepWeights_default]
  rfl

lemma scored_base_proj (t : List Row0) :
    (calculate_fers_core (2/5) (7/20) (1/4)
      (calculate_liss (calculate_igi (calculate_ceps t)))).map scoredBase = t := by
  have h : ∀ (u : List Row4), u.map scoredBase =
      (((u.map (·.toRow3)).map (·.toRow2)).map (·.toRow1)).map (·.toRow0) := by
    intro u
    rw [List.map_map, List.map_map, List.map_map]
    rfl
  rw [h, calculate_fers_core_proj, calculate_liss_proj, calculate_igi_proj,
    calculate_ceps_proj]

/-! ## Claims -/

/-- C10: `create_policy_alerts` called without a scores table (the
`scores_df = None` default) returns the empty alert list for every input
table instead of raising. -/
theorem create_policy_alerts_without_scores (df : List Row0) :
    create_policy_alerts df none = [] := rfl

/-- C2: `compute_all_scores` is idempotent — applying it to its own output
(re-scoring the already-scored table, which recomputes every score column
from the preserved base columns) yields the identical table column for
column. -/
theorem compute_all_scores_idempotent (t : List Row0) :
    (compute_all_scores t).bind compute_all_scores_rescore = compute_all_scores t := by
  rw [compute_all_scores_eq t]
  show compute_all_scores_rescore _ = _
  unfold compute_all_scores_rescore
  rw [scored_base_proj, compute_all_scores_eq]

/-- C3: on rows with `C ≥ 0` and `A ≥ 0`, `calculate_ceps` produces
`CEPS = C/(C+A+ε)·100` with `0 ≤ CEPS ≤ 100`, and the inclusion level
matches the threshold table exactly at the boundaries (in particular
`classify_inclusion 30 = "Moderate"` and `classify_inclusion 60 = "Healthy"`). -/
theorem calculate_ceps_bounds_and_classification (t : List Row0)
    (h : ∀ r ∈ t, 0 ≤ r.C ∧ 0 ≤ r.A) :
    (∀ s ∈ calculate_ceps t,
      s.ceps = s.C / (s.C + s.A + eps) * 100 ∧
      0 ≤ s.ceps ∧ s.ceps ≤ 100 ∧
      (s.ceps < 30 → s.inclusionLevel = "Critical") ∧
      (30 ≤ s.ceps → s.ceps < 60 → s.inclusionLevel = "Moderate") ∧
      (60 ≤ s.ceps → s.inclusionLevel = "Healthy")) ∧
    classify_inclusion 30 = "Moderate" ∧ classify_inclusion 60 = "Healthy" := by
  refine ⟨?_, by norm_num [classify_inclusion], by norm_num [classify_inclusion]⟩
  intro s hs
  rw [calculate_ceps, List.mem_map] at hs
  obtain ⟨r, hr, rfl⟩ := hs
  obtain ⟨hC, hA⟩ := h r hr
  have hden : 0 < r.C + r.A + eps := by
    have := eps_pos
    linarith
  have hceps0 : 0 ≤ r.C / (r.C + r.A + eps) * 100 :=
    mul_nonneg (div_nonneg hC hden.le) (by norm_num)
  have hceps100 : r.C / (r.C + r.A + eps) * 100 ≤ 100 := by
    have h1 : r.C / (r.C + r.A + eps) ≤ 1 := by
      rw [div_le_one hden]
      have := eps_pos
      linarith
    nlinarith
  refine ⟨rfl, hceps0, hceps100, ?_, ?_, ?_⟩
  · intro hlt
    simp only [classify_inclusion, if_pos hlt]
  · intro h30 h60
    simp only [classify_inclusion, if_neg (not_lt.2 h30), if_pos h60]
  · intro h60
    have h30 : ¬ (r.C / (r.C + r.A + eps) * 100 < 30) := by
      push_neg
      linarith
    have h60' : ¬ (r.C / (r.C + r.A + eps) * 100 < 60) := by
      push_neg
      linarith
    simp only [classify_inclusion, if_neg h30, if_neg h60']

/-- The concrete table instantiating C3's hypotheses. -/
def c3t : List Row0 := [⟨"Bihar", "Patna", 2024, 1, 1000, 9000, some 0⟩]

/-- C1 as stated: every row of the scored output has `IGI`, `LISS` and `FERS`
inside the clipping bounds — in particular `FERS` is an in-bounds *number* on
every row, including rows whose volatility is undefined. -/
def c1_claim : Prop :=
  ∀ (t : List Row0) (u : List Row4), compute_all_scores t = .ok u →
    ∀ r ∈ u, (-10 ≤ r.igi ∧ r.igi ≤ 1) ∧ (0 ≤ r.liss ∧ r.liss ≤ 1) ∧
      ∃ q, r.fers = some q ∧ 0 ≤ q ∧ q ≤ 1

/-- A one-row table whose `Enrolment_Volatility` is `NaN` (as
`extract_parameters` produces for the first period of every region). -/
def c1t : List Row0 := [⟨"A", "B", 2024, 1, 100, 900, none⟩]

/-- The scored output for `c1t`. -/
def c1u : List Row4 :=
  calculate_fers_core (2/5) (7/20) (1/4)
    (calculate_liss (calculate_igi (calculate_ceps c1t)))

/-- Its single row. -/
def c1r : Row4 := c1u.headI

/-- C1 counterexample: on a row with `NaN` volatility the computed `FERS` is
`NaN` (`none`), and `NaN` satisfies no bound, so the claimed invariant
`0 ≤ FERS ≤ 1` fails for that row of the scored output. -/
theorem scores_clipping_counterexample : ¬ c1_claim := by
  intro h
  have hok : compute_all_scores c1t = .ok c1u := compute_all_scores_eq c1t
  have hu : c1u = [c1r] := rfl
  obtain ⟨q, hq, -⟩ :=
    (h c1t c1u hok c1r (by rw [hu]; exact List.mem_singleton_self _)).2.2
  have hnone : c1r.fers = none := rfl
  rw [hnone] at hq
  exact Option.noConfusion hq

/-- C1 amended: every row of the scored output has `-10 ≤ IGI ≤ 1` and
`0 ≤ LISS ≤ 1`; `FERS` satisfies `0 ≤ FERS ≤ 1` whenever it is a number, and
it is missing (`NaN`) exactly on the rows whose `Enrolment_Volatility` is
missing. -/
theorem scores_clipping_invariants (t : List Row0) (u : List Row4)
    (h : compute_all_scores t = .ok u) :
    ∀ r ∈ u, (-10 ≤ r.igi ∧ r.igi ≤ 1) ∧ (0 ≤ r.liss ∧ r.liss ≤ 1) ∧
      (∀ q, r.fers = some q → 0 ≤ q ∧ q ≤ 1) ∧ (r.fers = none ↔ r.vol = none) := by
  rw [compute_all_scores_eq t] at h
  injection h with h
  subst h
  intro r hr
  simp only [calculate_fers_core, List.mem_map] at hr
  obtain ⟨r3, hr3, rfl⟩ := hr
  simp only [calculate_liss, List.mem_map] at hr3
  obtain ⟨r2, hr2, rfl⟩ := hr3
  simp only [calculate_igi, List.mem_map] at hr2
  obtain ⟨r1, hr1, rfl⟩ := hr2
  refine ⟨⟨le_clipQ _, clipQ_le _ (by norm_num)⟩,
    ⟨le_clipQ _, clipQ_le _ (by norm_num)⟩, ?_, ?_⟩
  · intro q hq
    rw [Option.map_eq_some'] at hq
    obtain ⟨v, -, rfl⟩ := hq
    exact ⟨le_clipQ _, clipQ_le _ (by norm_num)⟩
  · exact Option.map_eq_none'

/-- A two-row table (one row with volatility, one with `NaN` volatility)
instantiating C1's amended statement. -/
def c1wt : List Row0 :=
  [⟨"A", "B", 2024, 1, 100, 900, some 5⟩, ⟨"A", "B", 2024, 2, 200, 800, none⟩]

/-- The scored output for `c1wt`. -/
def c1wu : List Row4 :=
  calculate_fers_core (2/5) (7/20) (1/4)
    (calculate_liss (calculate_igi (calculate_ceps c1wt)))

/-- Witness for the amended C1 at a concrete table. -/
theorem scores_clipping_invariants_witness :
    compute_all_scores c1wt = .ok c1wu ∧
    (∀ r ∈ c1wu, (-10 ≤ r.igi ∧ r.igi ≤ 1) ∧ (0 ≤ r.liss ∧ r.liss ≤ 1) ∧
      (∀ q, r.fers = some q → 0 ≤ q ∧ q ≤ 1) ∧ (r.fers = none ↔ r.vol = none)) :=
  ⟨compute_all_scores_eq c1wt,
    scores_clipping_invariants c1wt c1wu (compute_all_scores_eq c1wt)⟩

/-- C5 as stated: the volatility of a region's series at index `i` is defined
for every `i` and equals the population standard deviation of the trailing
window (compared at the squared level, which determines it exactly). -/
def c5_claim : Prop :=
  ∀ (xs : List ℚ) (i : Nat), i < xs.length →
    (enrolmentVolatilitySq xs)[i]? = some (some (specPopVar (windowAt xs i)))

/-- C5 counterexample: for the series `[0, 2]` at `i = 1` the code's rolling
sample variance is `2` while the population variance of the window is `1`
(and at `i = 0` the code produces `NaN` rather than a number at all). -/
theorem volatility_population_counterexample : ¬ c5_claim := by
  intro h
  exact absurd (h [0, 2] 1 (by decide)) (by decide)

/-- C5 amended: the volatility series value at index `i` is missing (`NaN`)
at `i = 0` (a one-sample window with `ddof = 1`), and for `i ≥ 1` it is the
*sample* (ddof = 1) variance of the trailing window `[max(0, i-2), i]`
(squared level). -/
theorem enrolment_volatility_characterisation (xs : List ℚ) (i : Nat)
    (h : i < xs.length) :
    (i = 0 → (enrolmentVolatilitySq xs)[i]? = some none) ∧
    (1 ≤ i → (enrolmentVolatilitySq xs)[i]? = some (some (sampleVar (windowAt xs i)))) := by
  have hget : (enrolmentVolatilitySq xs)[i]? =
      some (if 2 ≤ (windowAt xs i).length then some (sampleVar (windowAt xs i))
        else none) := by
    rw [enrolmentVolatilitySq, List.getElem?_map, List.getElem?_range h]
    rfl
  have hlen : (windowAt xs i).length = (i + 1) - (i + 1 - 3) := by
    rw [windowAt, List.length_drop, List.length_take,
      min_eq_left (by omega : i + 1 ≤ xs.length)]
  constructor
  · rintro rfl
    have hno : ¬ (2 ≤ (windowAt xs 0).length) := by rw [hlen]; omega
    rw [hget, if_neg hno]
  · intro h1
    have hyes : 2 ≤ (windowAt xs i).length := by rw [hlen]; omega
    rw [hget, if_pos hyes]

/-- Witness for the amended C5 at the concrete series `[5, 6, 7]`, `i = 1`. -/
theorem enrolment_volatility_characterisation_witness :
    1 < ([5, 6, 7] : List ℚ).length ∧
    ((1 = 0 → (enrolmentVolatilitySq [5, 6, 7])[1]? = some none) ∧
     (1 ≤ 1 → (enrolmentVolatilitySq [5, 6, 7])[1]? =
        some (some (sampleVar (windowAt [5, 6, 7] 1))))) :=
  ⟨by decide, enrolment_volatility_characterisation [5, 6, 7] 1 (by decide)⟩

/-- The failing input for C6: region `("A","X")` ends with `C = 100`; region
`("B","Y")` follows it in the sorted table and all its within-region steps
change by less than 10. -/
def c6t : List SRow :=
  [⟨"A", "X", 2024, 1, 100⟩,
   ⟨"B", "Y", 2024, 1, 100⟩, ⟨"B", "Y", 2024, 2, 105⟩, ⟨"B", "Y", 2024, 3, 103⟩,
   ⟨"B", "Y", 2024, 4, 101⟩, ⟨"B", "Y", 2024, 5, 99⟩, ⟨"B", "Y", 2024, 6, 102⟩]

/-- C6: the near-zero-growth flag of the stagnation detector is computed by a
global `shift(1)` over the sorted table, so the first row of region
`("B","Y")` is flagged against the last row of region `("A","X")`; with the
default window of 6 this makes the code report the sixth `("B","Y")` row as
stagnant, while the within-the-same-region computation the claim describes
flags nothing. -/
theorem stagnation_flag_crosses_regions :
    nearZeroGrowthFlags (sortByRegionTime c6t) =
      [false, true, true, true, true, true, true] ∧
    detect_stagnation_anomaly c6t 6 = [⟨"B", "Y", 2024, 6, 102⟩] ∧
    specStagnationFlags c6t 6 = [false, false, false, false, false, false, false] := by
  have hs : sortByRegionTime c6t = c6t := by
    unfold sortByRegionTime
    exact List.mergeSort_of_sorted (by decide)
  refine ⟨?_, ?_, ?_⟩
  · rw [hs]
    decide
  · unfold detect_stagnation_anomaly stagnationFlags
    rw [hs]
    decide
  · unfold specStagnationFlags
    rw [hs]
    decide

/-- C7 as stated: a `(State,District,Age_Group)` group with exactly one
observation gets z-score `0` via the ε guard. -/
def c7_claim : Prop :=
  ∀ (t : List NRow) (r : NRow), r ∈ t →
    (groupCounts t r).length = 1 → zscoreColumn t r = some 0

/-- A cleaned table with a single observation in its only group. -/
def c7t : List NRow := [⟨"Bihar", "Patna", "Child", 5⟩]

/-- That observation's row. -/
def c7r : NRow := ⟨"Bihar", "Patna", "Child", 5⟩

/-- C7 counterexample: for a singleton group pandas `Series.std()`
(`ddof = 1`) is `NaN`, so the z-score is `NaN` (`none`), not `0`. -/
theorem zscore_singleton_counterexample : ¬ c7_claim := by
  intro h
  have h0 := h c7t c7r (by decide) (by decide)
  have hg : groupCounts c7t c7r = [5] := by decide
  have hn : zscoreColumn c7t c7r = none := by
    rw [zscoreColumn, enrolmentZScore, seriesStd, hg,
      if_neg (by norm_num : ¬ (2 ≤ ([5] : List ℚ).length))]
    rfl
  rw [hn] at h0
  exact Option.noConfusion h0

/-- C7 amended: in `normalize_data`, a group with a single observation has
sample std `NaN`, and the `Enrolment_ZScore` of its row is missing (`NaN`),
not `0`. -/
theorem zscore_singleton_group_is_nan (t : List NRow) (r : NRow) (_hmem : r ∈ t)
    (h1 : (groupCounts t r).length = 1) : zscoreColumn t r = none := by
  rw [zscoreColumn, enrolmentZScore, seriesStd, h1,
    if_neg (by norm_num : ¬ ((2 : Nat) ≤ 1))]
  rfl

/-- Witness for the amended C7 at the concrete singleton table. -/
theorem zscore_singleton_group_is_nan_witness :
    c7r ∈ c7t ∧ (groupCounts c7t c7r).length = 1 ∧ zscoreColumn c7t c7r = none :=
  ⟨by decide, by decide, zscore_singleton_group_is_nan c7t c7r (by decide) (by decide)⟩

/-- C8 as stated: whenever the weights that `calculate_fers` would use after
its renormalization step are negative, an error is raised to the caller
(either the weights coming out of the check are non-negative, or the call
errors). -/
def c8_claim : Prop :=
  ∀ (w1 w2 w3 : ℚ) (t : List Row3),
    (∀ w, prepWeights w1 w2 w3 = .ok w → 0 ≤ w.1 ∧ 0 ≤ w.2.1 ∧ 0 ≤ w.2.2) ∨
    (∃ e, calculate_fers w1 w2 w3 t = .error e)

/-- C8 counterexample: the mixed-sign weights `(2, -1/2, -1/2)` sum to 1, so
the check passes them through unchanged — negative — and `calculate_fers`
returns normally instead of raising any error. -/
theorem fers_weight_validation_counterexample : ¬ c8_claim := by
  intro h
  rcases h 2 (-1/2) (-1/2) [] with h1 | ⟨e, he⟩
  · have h2 : prepWeights 2 (-1/2) (-1/2) = .ok (2, -1/2, -1/2) := by
      rw [prepWeights, if_neg (by norm_num)]
    have := (h1 (2, -1/2, -1/2) h2).2.1
    norm_num at this
  · have h3 : calculate_fers 2 (-1/2) (-1/2) ([] : List Row3) = .ok [] := by
      rw [calculate_fers, prepWeights, if_neg (by norm_num)]
      rfl
    rw [h3] at he
    exact Except.noConfusion he

lemma prepWeights_cases (w1 w2 w3 : ℚ) :
    (w1 + w2 + w3 = 0 → prepWeights w1 w2 w3 = .error "ZeroDivisionError") ∧
    (|w1 + w2 + w3 - 1| ≤ 1/100 → prepWeights w1 w2 w3 = .ok (w1, w2, w3)) ∧
    (|w1 + w2 + w3 - 1| > 1/100 → w1 + w2 + w3 ≠ 0 →
      prepWeights w1 w2 w3 = .ok
        (w1 / (w1 + w2 + w3), w2 / (w1 + w2 + w3), w3 / (w1 + w2 + w3))) := by
  refine ⟨?_, ?_, ?_⟩
  · intro hz
    have habs : (1 : ℚ)/100 < |w1 + w2 + w3 - 1| := by
      rw [hz, zero_sub, abs_neg, abs_one]
      norm_num
    simp only [prepWeights, if_pos habs, if_pos hz]
  · intro hle
    simp only [prepWeights, if_neg (not_lt.2 hle)]
  · intro hgt hz
    simp only [prepWeights, if_pos hgt, if_neg hz]

/-- C8 amended: `calculate_fers` performs no sign or finiteness validation.
It errors (an unhandled `ZeroDivisionError`, not a `ConfigurationError`)
exactly when the weights sum to 0; when `|w1+w2+w3-1| ≤ 0.01` the weights
are used exactly as given (negative ones included), and otherwise they are
silently renormalized by their (nonzero) total. -/
theorem calculate_fers_error_behaviour (w1 w2 w3 : ℚ) (t : List Row3) :
    ((∃ e, calculate_fers w1 w2 w3 t = .error e) ↔ w1 + w2 + w3 = 0) ∧
    (|w1 + w2 + w3 - 1| ≤ 1/100 →
      calculate_fers w1 w2 w3 t = .ok (calculate_fers_core w1 w2 w3 t)) ∧
    (|w1 + w2 + w3 - 1| > 1/100 → w1 + w2 + w3 ≠ 0 →
      calculate_fers w1 w2 w3 t = .ok (calculate_fers_core
        (w1 / (w1 + w2 + w3)) (w2 / (w1 + w2 + w3)) (w3 / (w1 + w2 + w3)) t)) := by
  obtain ⟨hz', hle', hgt'⟩ := prepWeights_cases w1 w2 w3
  refine ⟨⟨?_, ?_⟩, ?_, ?_⟩
  · rintro ⟨e, he⟩
    by_contra hz
    rcases le_or_lt |w1 + w2 + w3 - 1| (1/100) with hle | hgt
    · rw [calculate_fers, hle' hle] at he
      exact Except.noConfusion he
    · rw [calculate_fers, hgt' hgt hz] at he
      exact Except.noConfusion he
  · intro hz
    exact ⟨"ZeroDivisionError", by rw [calculate_fers, hz' hz]; rfl⟩
  · intro hle
    rw [calculate_fers, hle' hle]
    rfl
  · intro hgt hz
    rw [calculate_fers, hgt' hgt hz]
    rfl

/-- Witness for the amended C8: weights `(2, -1/2, -1/2)` sum to 1, are used
as given, and the call returns normally. -/
theorem calculate_fers_error_behaviour_witness :
    |(2 : ℚ) + (-1/2) + (-1/2) - 1| ≤ 1/100 ∧
    calculate_fers 2 (-1/2) (-1/2) ([] : List Row3) =
      .ok (calculate_fers_core 2 (-1/2) (-1/2) []) :=
  ⟨by norm_num,
    (calculate_fers_error_behaviour 2 (-1/2) (-1/2) []).2.1 (by norm_num)⟩

/-- C9 as stated: no core operation mutates the caller's input table in
place — in particular `get_priority_intervention_regions` leaves the
caller's scores table unchanged. -/
def c9_claim : Prop :=
  ∀ (df : List Row0) (scores : List (Row4 × Option ℚ)) (n : Nat),
    (get_priority_intervention_regions df scores n).1 = scores

/-- A scored row used by the C9 counterexample. -/
def c9row : Row4 :=
  ⟨⟨⟨⟨⟨"Bihar", "Patna", 2024, 1, 150, 850, some 5⟩, 15, "Critical"⟩,
    7/10, "High_Gap"⟩, 1, "Highly_Stable"⟩, some (4/5), "Medium_Risk"⟩

/-- A caller's scores table without the `Intervention_Priority` column. -/
def c9scores : List (Row4 × Option ℚ) := [(c9row, none)]

/-- C9 counterexample: after `get_priority_intervention_regions` the caller's
scores table has gained the `Intervention_Priority` column in place
(`scores_df['Intervention_Priority'] = ...` with no preceding copy). -/
theorem intervention_mutation_counterexample : ¬ c9_claim := by
  intro h
  exact absurd (h [] c9scores 10) (by decide)

/-- C9 amended: every pipeline stage except
`get_priority_intervention_regions` leaves the caller's tables unchanged —
scoring, the regional and state summaries, the top-N summary views, all five
anomaly detectors (individually and via `detect_all_anomalies`), and alert
generation each copy their input or build new frames; only
`get_priority_intervention_regions` assigns the `Intervention_Priority`
column into the caller's scores table in place, so the caller's table
afterwards is the column-extended one. -/
theorem pipeline_mutation_characterisation (t df : List Row0)
    (u : List Row4) (scores : Option (List Row4)) (sdf : List (Row4 × Option ℚ))
    (sr : List SRow) (n m k : Nat) (vt gt mc : ℚ) :
    (compute_all_scores_st t).1 = t ∧
    (get_regional_summary_st u).1 = u ∧
    (get_state_summary_st u).1 = u ∧
    (get_top_risk_regions_st u n).1 = u ∧
    (get_top_low_inclusion_regions_st u n).1 = u ∧
    (detect_high_adult_enrolment_anomaly_st t mc).1 = t ∧
    (detect_declining_growth_anomaly_st t k gt).1 = t ∧
    (detect_volatility_anomaly_st t vt).1 = t ∧
    (detect_stagnation_anomaly_st sr m).1 = sr ∧
    (detect_seasonal_anomaly_st t).1 = t ∧
    (detect_all_anomalies_st t vt gt mc).1 = t ∧
    (create_policy_alerts_st df scores).1 = (df, scores) ∧
    (get_priority_intervention_regions df sdf n).1 =
      sdf.map (fun p => (p.1, interventionScore p.1)) :=
  ⟨rfl, rfl, rfl, rfl, rfl, rfl, rfl, rfl, rfl, rfl, rfl, rfl, rfl⟩

/-- Witness for C3 at a concrete table. -/
theorem calculate_ceps_bounds_and_classification_witness :
    (∀ r ∈ c3t, 0 ≤ r.C ∧ 0 ≤ r.A) ∧
    ((∀ s ∈ calculate_ceps c3t,
      s.ceps = s.C / (s.C + s.A + eps) * 100 ∧
      0 ≤ s.ceps ∧ s.ceps ≤ 100 ∧
      (s.ceps < 30 → s.inclusionLevel = "Critical") ∧
      (30 ≤ s.ceps → s.ceps < 60 → s.inclusionLevel = "Moderate") ∧
      (60 ≤ s.ceps → s.inclusionLevel = "Healthy")) ∧
    classify_inclusion 30 = "Moderate" ∧ classify_inclusion 60 = "Healthy") :=
  ⟨by decide, calculate_ceps_bounds_and_classification c3t (by decide)⟩

/-! ## C4: alert typing, priorities, multiplicity and ordering -/

/-- Is this a `CRITICAL_INCLUSION_GAP` alert? -/
def isCritAlert (a : Alert) : Bool := a.type = "CRITICAL_INCLUSION_GAP"

/-- Is this a `HIGH_EXCLUSION_RISK` alert? -/
def isHighAlert (a : Alert) : Bool := a.type = "HIGH_EXCLUSION_RISK"

/-- Is this an `UNSTABLE_ENROLMENT` alert? -/
def isUnstableAlert (a : Alert) : Bool := a.type = "UNSTABLE_ENROLMENT"

/-- C4 as stated, about `create_policy_alerts`: one alert per qualifying row
per rule, every alert carrying its priority (`P0`/`P1`/`P2` by type), and the
output pairwise sorted ascending by priority. -/
def c4_claim : Prop :=
  ∀ (df : List Row0) (s : List Row4),
    ((create_policy_alerts df (some s)).countP isCritAlert = s.countP cepsLow) ∧
    ((create_policy_alerts df (some s)).countP isHighAlert = s.countP fersHigh) ∧
    ((create_policy_alerts df (some s)).countP isUnstableAlert = s.countP lissLow) ∧
    (∀ a ∈ create_policy_alerts df (some s),
      (a.type = "CRITICAL_INCLUSION_GAP" → a.priority = some "P0") ∧
      (a.type = "HIGH_EXCLUSION_RISK" → a.priority = some "P1") ∧
      (a.type = "UNSTABLE_ENROLMENT" → a.priority = some "P2")) ∧
    (create_policy_alerts df (some s)).Pairwise
      (fun a b => priorityOrder a ≤ priorityOrder b)

/-- The scored row of the spec example: `CEPS = 15`, `FERS = 0.8`. -/
def c4row : Row4 :=
  ⟨⟨⟨⟨⟨"Bihar", "Patna", 2024, 1, 150, 850, some 5⟩, 15, "Critical"⟩,
    7/10, "High_Gap"⟩, 1, "Highly_Stable"⟩, some (4/5), "Medium_Risk"⟩

/-- C4 counterexample: the alert dictionaries built by
`create_policy_alerts` carry no `priority` key at all (the decoration
happens later, in `api.py`), so the first alert for the spec-example row has
type `CRITICAL_INCLUSION_GAP` but priority `none`, not `P0`. -/
theorem alerts_priority_counterexample : ¬ c4_claim := by
  intro h
  obtain ⟨-, -, -, hpr, -⟩ := h [] [c4row]
  have hmem : (create_policy_alerts [] (some [c4row])).headI ∈
      create_policy_alerts [] (some [c4row]) := by decide
  have h0 := (hpr _ hmem).1 (by decide)
  exact absurd h0 (by decide)

lemma addPriority_type (a : Alert) : (addPriority a).type = a.type := by
  rw [addPriority]
  split_ifs <;> rfl

lemma addPriority_priorities (a : Alert) :
    ((addPriority a).type = "CRITICAL_INCLUSION_GAP" →
      (addPriority a).priority = some "P0") ∧
    ((addPriority a).type = "HIGH_EXCLUSION_RISK" →
      (addPriority a).priority = some "P1") ∧
    ((addPriority a).type = "UNSTABLE_ENROLMENT" →
      (addPriority a).priority = some "P2") := by
  rw [addPriority]
  split_ifs with h1 h2
  · exact ⟨fun _ => rfl,
      fun hh => absurd (h1.symm.trans hh) (by decide),
      fun hh => absurd (h1.symm.trans hh) (by decide)⟩
  · exact ⟨fun hh => absurd (h2.symm.trans hh) (by decide),
      fun _ => rfl,
      fun hh => absurd (h2.symm.trans hh) (by decide)⟩
  · exact ⟨fun hh => absurd hh h1, fun hh => absurd hh h2, fun _ => rfl⟩

lemma countP_map_true {α : Type} (f : α → Alert) (p : Alert → Bool)
    (l : List α) (h : ∀ a, p (f a) = true) : (l.map f).countP p = l.length := by
  rw [List.countP_map]
  rw [show (p ∘ f) = fun _ => true from funext fun a => h a]
  rw [List.countP_true]

lemma countP_map_false {α : Type} (f : α → Alert) (p : Alert → Bool)
    (l : List α) (h : ∀ a, p (f a) = false) : (l.map f).countP p = 0 := by
  rw [List.countP_map]
  rw [show (p ∘ f) = fun _ => false from funext fun a => h a]
  rw [List.countP_false]
  rfl

lemma api_countP (df : List Row0) (s : List Row4) (p : Alert → Bool)
    (hp : ∀ a, p (addPriority a) = p a) :
    (apiPolicyAlerts df (some s)).countP p =
      (create_policy_alerts df (some s)).countP p := by
  rw [apiPolicyAlerts, (List.mergeSort_perm _ _).countP_eq, List.countP_map]
  exact List.countP_congr fun a _ => by rw [Function.comp_apply, hp]

lemma cpa_count_crit (df : List Row0) (s : List Row4) :
    (create_policy_alerts df (some s)).countP isCritAlert = s.countP cepsLow := by
  show ((s.filter cepsLow).map critAlertOf
      ++ (s.filter fersHigh).map highAlertOf
      ++ (s.filter lissLow).map unstableAlertOf).countP isCritAlert = _
  rw [List.countP_append, List.countP_append,
    countP_map_true _ _ _ (fun a => rfl),
    countP_map_false _ _ _ (fun a => rfl),
    countP_map_false _ _ _ (fun a => rfl),
    List.countP_eq_length_filter]
  omega

lemma cpa_count_high (df : List Row0) (s : List Row4) :
    (create_policy_alerts df (some s)).countP isHighAlert = s.countP fersHigh := by
  show ((s.filter cepsLow).map critAlertOf
      ++ (s.filter fersHigh).map highAlertOf
      ++ (s.filter lissLow).map unstableAlertOf).countP isHighAlert = _
  rw [List.countP_append, List.countP_append,
    countP_map_false _ _ _ (fun a => rfl),
    countP_map_true _ _ _ (fun a => rfl),
    countP_map_false _ _ _ (fun a => rfl),
    List.countP_eq_length_filter]
  omega

lemma cpa_count_unstable (df : List Row0) (s : List Row4) :
    (create_policy_alerts df (some s)).countP isUnstableAlert = s.countP lissLow := by
  show ((s.filter cepsLow).map critAlertOf
      ++ (s.filter fersHigh).map highAlertOf
      ++ (s.filter lissLow).map unstableAlertOf).countP isUnstableAlert = _
  rw [List.countP_append, List.countP_append,
    countP_map_false _ _ _ (fun a => rfl),
    countP_map_false _ _ _ (fun a => rfl),
    countP_map_true _ _ _ (fun a => rfl),
    List.countP_eq_length_filter]
  omega

lemma alertLE_trans : ∀ a b c : Alert,
    alertLE a b = true → alertLE b c = true → alertLE a c = true := by
  intro a b c h1 h2
  simp only [alertLE, decide_eq_true_eq] at *
  omega

lemma alertLE_total : ∀ a b : Alert, (alertLE a b || alertLE b a) = true := by
  intro a b
  rcases Nat.le_total (priorityOrder a) (priorityOrder b) with h | h <;>
    simp [alertLE, h]

/-- C4 amended: `create_policy_alerts` itself attaches no priorities; after
the API layer's decoration and sort (`apiPolicyAlerts`), the served list has
one `CRITICAL_INCLUSION_GAP` alert per row with `CEPS < 20`, one
`HIGH_EXCLUSION_RISK` alert per row with `FERS > 0.75`, one
`UNSTABLE_ENROLMENT` alert per row with `LISS < 0.4`, each carrying priority
`P0`/`P1`/`P2` by type, sorted pairwise ascending by priority; the
spec-example row (`CEPS = 15`, `FERS = 0.8`) yields at least one `P0` and
one `P1` alert. -/
theorem api_policy_alerts_characterisation (df : List Row0) (s : List Row4) :
    ((apiPolicyAlerts df (some s)).countP isCritAlert = s.countP cepsLow) ∧
    ((apiPolicyAlerts df (some s)).countP isHighAlert = s.countP fersHigh) ∧
    ((apiPolicyAlerts df (some s)).countP isUnstableAlert = s.countP lissLow) ∧
    (∀ a ∈ apiPolicyAlerts df (some s),
      (a.type = "CRITICAL_INCLUSION_GAP" → a.priority = some "P0") ∧
      (a.type = "HIGH_EXCLUSION_RISK" → a.priority = some "P1") ∧
      (a.type = "UNSTABLE_ENROLMENT" → a.priority = some "P2")) ∧
    (apiPolicyAlerts df (some s)).Pairwise
      (fun a b => priorityOrder a ≤ priorityOrder b) ∧
    1 ≤ (apiPolicyAlerts [] (some [c4row])).countP
      (fun a => isCritAlert a && a.priority = some "P0") ∧
    1 ≤ (apiPolicyAlerts [] (some [c4row])).countP
      (fun a => isHighAlert a && a.priority = some "P1") := by
  have hconc : apiPolicyAlerts [] (some [c4row]) =
      (create_policy_alerts [] (some [c4row])).map addPriority := by
    rw [apiPolicyAlerts]
    exact List.mergeSort_of_sorted (by decide)
  refine ⟨?_, ?_, ?_, ?_, ?_, ?_, ?_⟩
  · rw [api_countP df s isCritAlert
      (fun a => by simp only [isCritAlert, addPriority_type]), cpa_count_crit]
  · rw [api_countP df s isHighAlert
      (fun a => by simp only [isHighAlert, addPriority_type]), cpa_count_high]
  · rw [api_countP df s isUnstableAlert
      (fun a => by simp only [isUnstableAlert, addPriority_type]),
      cpa_count_unstable]
  · intro a ha
    rw [apiPolicyAlerts, (List.mergeSort_perm _ _).mem_iff, List.mem_map] at ha
    obtain ⟨b, -, rfl⟩ := ha
    exact addPriority_priorities b
  · have hp := List.sorted_mergeSort alertLE_trans alertLE_total
      ((create_policy_alerts df (some s)).map addPriority)
    rw [apiPolicyAlerts]
    exact hp.imp fun h => by simpa [alertLE, decide_eq_true_eq] using h
  · rw [hconc]
    decide
  · rw [hconc]
    decide

/-- Witness for the amended C4 at the spec-example table. -/
theorem api_policy_alerts_characterisation_witness :
    (apiPolicyAlerts [] (some [c4row])).countP isCritAlert = [c4row].countP cepsLow ∧
    1 ≤ (apiPolicyAlerts [] (some [c4row])).countP
      (fun a => isCritAlert a && a.priority = some "P0") ∧
    1 ≤ (apiPolicyAlerts [] (some [c4row])).countP
      (fun a => isHighAlert a && a.priority = some "P1") :=
  ⟨(api_policy_alerts_characterisation [] [c4row]).1,
   (api_policy_alerts_characterisation [] [c4row]).2.2.2.2.2.1,
   (api_policy_alerts_characterisation [] [c4row]).2.2.2.2.2.2⟩

end CAIMF
